import Mathlib

/-!
Verification of the dataset ingestion and validation pipeline of the
riceprotek web application.

The embedding models pandas DataFrames as a header (list of column
names) plus a list of rows, where each cell is either a rational
number or missing (`none`, playing the role of NaN/None).  Stateful
storage operations (SQLite tables, MongoDB collections) are modelled
as explicit list-valued stores threaded through the functions;
operations that can raise a Python exception return `Except String`,
with the message text mirroring the source (quotes around interpolated
values are dropped).  Two storage backends exist in the repository:
`utils/database.py` (MongoDB), embedded under namespace `MongoDb`, and
`utils/database_sqlite_backup.py` (SQLite), embedded under namespace
`SqliteBackup`.  The import pipeline (`utils/pest_management.py` and
the Dataset Upload page of `app.py`) is embedded against the
`SqliteBackup` store, whose function signatures are the ones the
pipeline's call sites match (`read_records`, dict-argument
`create_pest_record`, two-argument `bulk_create_environmental_data`,
raising `validate_area_point_exists`).
-/

set_option maxRecDepth 4096

/-- A pandas cell: a rational value or missing (NaN / None). -/
abbrev Cell := Option ℚ

/-- A pandas DataFrame: column names plus rows of cells. -/
structure Frame where
  header : List String
  rows : List (List Cell)
deriving DecidableEq

/-- Column access `row[col]`: the cell under the first column named
`col`, or `none` when the column is absent (pandas `Series.get`
default). -/
def getCell : List String → List Cell → String → Cell
  | [], _, _ => none
  | _ :: _, [], _ => none
  | h :: hs, v :: vs, c => if h = c then v else getCell hs vs c

instance {ε α : Type} [DecidableEq ε] [DecidableEq α] : DecidableEq (Except ε α) :=
  fun a b =>
    match a, b with
    | Except.ok x, Except.ok y =>
      if h : x = y then isTrue (by rw [h])
      else isFalse (by intro hc; injection hc; contradiction)
    | Except.error e, Except.error f =>
      if h : e = f then isTrue (by rw [h])
      else isFalse (by intro hc; injection hc; contradiction)
    | Except.ok _, Except.error _ => isFalse (fun hc => Except.noConfusion hc)
    | Except.error _, Except.ok _ => isFalse (fun hc => Except.noConfusion hc)

/-! ### Generic list lemmas used throughout -/

/-- ASCII lowercasing of one character (`str.lower()` restricted to the
ASCII column names the pipeline uses). -/
def lowerChar (c : Char) : Char :=
  if 65 ≤ c.toNat ∧ c.toNat ≤ 90 then Char.ofNat (c.toNat + 32) else c

/-- `str.lower()` on a column name. -/
def lowerStr (s : String) : String := ⟨s.data.map lowerChar⟩

/-! ### Column Normalizer (`data_processing.normalize_column_names`) -/

/-- The fixed lowercase-to-canonical synonym table of
`normalize_column_names`, in source order. -/
def column_mapping : List (String × String) :=
  [("year", "Year"), ("month", "Month"), ("day", "Day"), ("week_number", "Week_Number"),
   ("rbb", "RBB"), ("wsb", "WSB"), ("t2m", "T2M"), ("t2m_min", "T2M_MIN"),
   ("t2m_max", "T2M_MAX"), ("rh2m", "RH2M"), ("prectotcorr", "PRECTOTCORR"),
   ("ws2m", "WS2M"), ("ws2m_max", "WS2M_MAX"), ("ws2m_min", "WS2M_MIN"),
   ("wd2m", "WD2M"), ("gwettop", "GWETTOP"), ("allsky_sfc_uva", "ALLSKY_SFC_UVA"),
   ("allsky_sfc_uvb", "ALLSKY_SFC_UVB"), ("clrsky_sfc_par_tot", "CLRSKY_SFC_PAR_TOT")]

/-- `current_cols_lower[lk]`: the last column of `cols` (dict
comprehension, later entries win) whose lowercase form is `lk`. -/
def lastWithLower (cols : List String) (lk : String) : Option String :=
  (cols.filter (fun c => (lowerStr c) == lk)).getLast?

/-- The renaming applied to one column name by `df.rename(columns=rename_dict)`:
a column is renamed to its canonical form exactly when its lowercase form is a
key of the synonym table and it is the representative column recorded in
`current_cols_lower`. -/
def renameCol (cols : List String) (c : String) : String :=
  match column_mapping.lookup (lowerStr c) with
  | some std => if lastWithLower cols (lowerStr c) = some c then std else c
  | none => c

/-- `data_processing.normalize_column_names`: rename columns to the
canonical vocabulary; the row data is untouched. -/
def normalize_column_names (df : Frame) : Frame :=
  ⟨df.header.map (renameCol df.header), df.rows⟩

/-! ### Schema Validator (`data_processing.validate_pest_dataset`) -/

/-- Required columns of `validate_pest_dataset` (blocking when absent). -/
def required_columns : List String :=
  [("Year"), ("Week_Number"), ("Month"), ("Day"), ("RBB"), ("WSB")]

/-- Expected environmental columns (warning only when absent). -/
def environmental_columns : List String :=
  [("T2M"), ("T2M_MIN"), ("T2M_MAX"), ("RH2M"), ("PRECTOTCORR")]

/-- The sublist of `wanted` whose lowercase form is not among the
lowercase column names of `hdr` (the `col.lower() not in df_cols_lower`
comprehension). -/
def missingFrom (hdr : List String) (wanted : List String) : List String :=
  wanted.filter (fun c => !((hdr.map lowerStr).contains (lowerStr c)))

/-- `", ".join(l)`. -/
def joinComma (l : List String) : String := String.intercalate (", ") l

/-- `Series.between(lo, hi)` on one cell; NaN compares false. -/
def cellBetween (c : Cell) (lo hi : ℚ) : Bool :=
  match c with
  | some v => decide (lo ≤ v) && decide (v ≤ hi)
  | none => false

/-- `cell < 0` on one cell; NaN compares false. -/
def cellNeg (c : Cell) : Bool :=
  match c with
  | some v => decide (v < 0)
  | none => false

/-- `len(df[~df[col].between(lo, hi)])`. -/
def countOutside (df : Frame) (col : String) (lo hi : ℚ) : Nat :=
  (df.rows.filter (fun r => !(cellBetween (getCell df.header r col) lo hi))).length

/-- `len(df[df[col] < 0])`. -/
def countNegative (df : Frame) (col : String) : Nat :=
  (df.rows.filter (fun r => cellNeg (getCell df.header r col))).length

/-- One range check of `validate_pest_dataset`: runs only when the
column is present under the exact capitalized or exact lowercase
name, and contributes a single aggregate error line. -/
def rangeCheck (df : Frame) (capName lowName : String) (lo hi : ℚ) (label : String) :
    List String :=
  if capName ∈ df.header ∨ lowName ∈ df.header then
    let col := if capName ∈ df.header then capName else lowName
    let n := countOutside df col lo hi
    if 0 < n then [("Invalid " ++ label ++ " values found: " ++ toString n ++ " rows")] else []
  else []

/-- The non-negativity check for one pest-count column; runs only when
the column is present under its exact name. -/
def pestCheck (df : Frame) (col : String) : List String :=
  if col ∈ df.header then
    let n := countNegative df col
    if 0 < n then [("Negative " ++ col ++ " values found: " ++ toString n ++ " rows")] else []
  else []

/-- The result object of `validate_pest_dataset`. -/
structure ValidationResult where
  valid : Bool
  errors : List String
  warnings : List String
  row_count : Nat
  column_count : Nat
deriving DecidableEq

/-- `data_processing.validate_pest_dataset`: case-insensitive
structural check of required columns, warnings for absent environmental
columns, then (only for non-empty, structurally valid tables) row-level
range checks keyed on the exact column names.  This is the result the
function returns on the paths where no range check raises; the raising
paths (a checked column name duplicated in the header, which makes the
`df[col]` access yield a DataFrame) are modelled by
`validate_pest_dataset_run` below.  Non-numeric cells in checked
columns, which make the pandas comparisons raise `TypeError`, are
outside the numeric-or-NaN cell model altogether. -/
def validate_pest_dataset (df : Frame) : ValidationResult :=
  let missing := missingFrom df.header required_columns
  let structuralErrors :=
    if missing ≠ [] then [("Missing required columns: " ++ joinComma missing)] else []
  let missingEnv := missingFrom df.header environmental_columns
  let warnings :=
    if missingEnv ≠ [] then [("Missing environmental columns: " ++ joinComma missingEnv)] else []
  let rangeErrors :=
    if 0 < df.rows.length ∧ structuralErrors = [] then
      rangeCheck df ("Year") ("year") 2000 2100 ("year") ++
      rangeCheck df ("Month") ("month") 1 12 ("month") ++
      rangeCheck df ("Day") ("day") 1 31 ("day") ++
      pestCheck df ("RBB") ++ pestCheck df ("WSB")
    else []
  let errors := structuralErrors ++ rangeErrors
  ⟨errors.isEmpty, errors, warnings, df.rows.length, df.header.length⟩

/-- How many columns of the header carry the name `c` (`df[c]` yields a
Series when this is 1 and a DataFrame when it is larger). -/
def colCount (hdr : List String) (c : String) : Nat :=
  (hdr.filter (fun x => x == c)).length

/-- One range check of `validate_pest_dataset` including its raising
path: when the selected column name is duplicated in the header,
`df[col]` is a DataFrame and `.between` raises `AttributeError`
(message abbreviated without quotes); otherwise the check returns its
error lines as in `rangeCheck`. -/
def rangeCheckRun (df : Frame) (capName lowName : String) (lo hi : ℚ) (label : String) :
    Except String (List String) :=
  if capName ∈ df.header ∨ lowName ∈ df.header then
    let col := if capName ∈ df.header then capName else lowName
    if 1 < colCount df.header col then
      Except.error ("AttributeError: DataFrame object has no attribute between")
    else Except.ok (rangeCheck df capName lowName lo hi label)
  else Except.ok []

/-- One pest-count check of `validate_pest_dataset` including its
raising path: when the column name is duplicated, `df[col] < 0` is a
boolean DataFrame and indexing `df` with it fails in pandas
label alignment with a `ValueError` (message abbreviated); otherwise
the check returns its error lines as in `pestCheck`. -/
def pestCheckRun (df : Frame) (col : String) : Except String (List String) :=
  if col ∈ df.header then
    if 1 < colCount df.header col then
      Except.error ("ValueError: cannot reindex from a duplicate axis")
    else Except.ok (pestCheck df col)
  else Except.ok []

/-- `data_processing.validate_pest_dataset` with its exception paths:
the range checks run in source order (year, month, day, RBB, WSB) and
the first raising check aborts the call; on the non-raising paths the
function returns the `validate_pest_dataset` result. -/
def validate_pest_dataset_run (df : Frame) : Except String ValidationResult :=
  let missing := missingFrom df.header required_columns
  let structuralErrors :=
    if missing ≠ [] then [("Missing required columns: " ++ joinComma missing)] else []
  let missingEnv := missingFrom df.header environmental_columns
  let warnings :=
    if missingEnv ≠ [] then [("Missing environmental columns: " ++ joinComma missingEnv)] else []
  if 0 < df.rows.length ∧ structuralErrors = [] then
    match rangeCheckRun df ("Year") ("year") 2000 2100 ("year") with
    | Except.error e => Except.error e
    | Except.ok e1 =>
      match rangeCheckRun df ("Month") ("month") 1 12 ("month") with
      | Except.error e => Except.error e
      | Except.ok e2 =>
        match rangeCheckRun df ("Day") ("day") 1 31 ("day") with
        | Except.error e => Except.error e
        | Except.ok e3 =>
          match pestCheckRun df ("RBB") with
          | Except.error e => Except.error e
          | Except.ok p1 =>
            match pestCheckRun df ("WSB") with
            | Except.error e => Except.error e
            | Except.ok p2 =>
              let errors := structuralErrors ++ (e1 ++ e2 ++ e3 ++ p1 ++ p2)
              Except.ok ⟨errors.isEmpty, errors, warnings, df.rows.length, df.header.length⟩
  else
    Except.ok ⟨structuralErrors.isEmpty, structuralErrors, warnings, df.rows.length,
      df.header.length⟩

/-- A CSV carrying both a `Year` and a `year` column: normalization
maps both names to `Year`, producing a duplicated header before
validation. -/
def c6_raw_table : Frame :=
  ⟨[("Year"), ("year"), ("Week_Number"), ("Month"), ("Day"), ("RBB"), ("WSB")],
   [[some 2021, some 2021, some 28, some 7, some 15, some 1, some 1]]⟩

/-- The table of the C10 witness: all required columns present but only
under other casings, with out-of-range year and negative pest counts. -/
def c10_table : Frame :=
  ⟨[("YEAR"), ("WEEK_NUMBER"), ("MONTH"), ("DAY"), ("rbb"), ("wsb")],
   [[some 1900, some 99, some 77, some 99, some (-5), some (-7)]]⟩

/-! ### Domain Splitter (`data_processing.chop_dataset_by_domain`) -/

/-- Environmental domain columns, in source order. -/
def env_columns : List String :=
  [("Year"), ("Month"), ("Day"), ("Week_Number"),
   ("CLRSKY_SFC_PAR_TOT"), ("ALLSKY_SFC_UVA"), ("ALLSKY_SFC_UVB"),
   ("T2M"), ("T2M_MIN"), ("T2M_MAX"), ("RH2M"), ("PRECTOTCORR"),
   ("WS2M"), ("WS2M_MAX"), ("WS2M_MIN"), ("WD2M"), ("GWETTOP")]

/-- Pest domain columns, in source order. -/
def pest_columns : List String :=
  [("Year"), ("Month"), ("Day"), ("Week_Number"), ("RBB"), ("WSB"), ("Moon_Category")]

/-- Metadata domain columns, in source order. -/
def metadata_columns : List String := [("Year"), ("Week_Number"), ("Month"), ("Day")]

/-- `[col for col in cols if col in df.columns]`. -/
def present_of (df : Frame) (cols : List String) : List String :=
  cols.filter (fun c => decide (c ∈ df.header))

/-- `df[cols].copy()`: the projection of a frame onto a column list. -/
def project (df : Frame) (cols : List String) : Frame :=
  ⟨cols, df.rows.map (fun r => cols.map (fun c => getCell df.header r c))⟩

def isLeapYear (y : Int) : Bool :=
  y % 4 == 0 && (y % 100 != 0 || y % 400 == 0)

def daysInMonth (y m : Int) : Int :=
  if m == 2 then (if isLeapYear y then 29 else 28)
  else if m == 4 || m == 6 || m == 9 || m == 11 then 30 else 31

/-- The pandas `Timestamp` representable-date window: full days from
1677-09-22 through 2262-04-11. -/
def dateInBounds (y m d : Int) : Bool :=
  (decide (1677 < y) || (y == 1677 && (decide (9 < m) || (m == 9 && decide (22 ≤ d))))) &&
  (decide (y < 2262) || (y == 2262 && (decide (m < 4) || (m == 4 && decide (d ≤ 11)))))

/-- Whether `pd.to_datetime` accepts one (year, month, day) cell
triple: all three present, integral, a real calendar date, inside the
Timestamp window. -/
def validYMD (y m d : Cell) : Bool :=
  match y, m, d with
  | some y, some m, some d =>
    y.den == 1 && m.den == 1 && d.den == 1 &&
    decide (1 ≤ m.num) && decide (m.num ≤ 12) &&
    decide (1 ≤ d.num) && decide (d.num ≤ daysInMonth y.num m.num) &&
    dateInBounds y.num m.num d.num
  | _, _, _ => false

/-- The derived date value, encoded injectively as y*10000 + m*100 + d. -/
def encodeYMD (y m d : Cell) : Cell :=
  match y, m, d with
  | some y, some m, some d => some (y * 10000 + m * 100 + d)
  | _, _, _ => none

/-- Whether `pd.to_datetime(df[['Year','Month','Day']])` succeeds for
every row of the frame (it raises, all-or-nothing, otherwise). -/
def frameDatesValid (f : Frame) : Bool :=
  f.rows.all (fun r =>
    validYMD (getCell f.header r ("Year")) (getCell f.header r ("Month"))
      (getCell f.header r ("Day")))

/-- The per-projection date derivation of `chop_dataset_by_domain`:
when the projection is non-empty, has the temporal columns, and every
row forms a valid date, a `date` column is appended; any failure is
swallowed and the projection is returned unchanged. -/
def addDate (f : Frame) : Frame :=
  if 0 < f.rows.length ∧ ("Year") ∈ f.header ∧ ("Month") ∈ f.header ∧ ("Day") ∈ f.header ∧
      frameDatesValid f = true then
    ⟨f.header ++ [("date")],
     f.rows.map (fun r => r ++
       [encodeYMD (getCell f.header r ("Year")) (getCell f.header r ("Month"))
          (getCell f.header r ("Day"))])⟩
  else f

/-- The three domain projections returned by `chop_dataset_by_domain`. -/
structure Domains where
  environmental : Frame
  pest : Frame
  metadata : Frame
deriving DecidableEq

/-- `data_processing.chop_dataset_by_domain`: environmental and pest
projections keep the domain columns present in the input; the metadata
projection is taken only when all four of its columns are present;
each projection then gains a derived date column when possible. -/
def chop_dataset_by_domain (df : Frame) : Domains :=
  let envExist := present_of df env_columns
  let pestExist := present_of df pest_columns
  let envF := if envExist ≠ [] then project df envExist else ⟨[], []⟩
  let pestF := if pestExist ≠ [] then project df pestExist else ⟨[], []⟩
  let metaF :=
    if metadata_columns.all (fun c => decide (c ∈ df.header)) then project df metadata_columns
    else ⟨[], []⟩
  ⟨addDate envF, addDate pestF, addDate metaF⟩

/-- An area point row; only the identifier and the active flag are
consulted by the pipeline. -/
structure AreaPoint where
  area_point_id : String
  is_active : Bool
deriving DecidableEq

/-- One activity-log entry (timestamps and IP address omitted;
`details` is the serialized detail payload). -/
structure LogEntry where
  user : String
  action : String
  module : String
  entity_type : Option String
  entity_id : Option String
  details : Option String
deriving DecidableEq

/-- The closed action vocabulary of `log_activity`. -/
def valid_actions : List String :=
  [("upload"), ("create"), ("read"), ("update"), ("delete"), ("login"), ("logout"),
   ("export"), ("import")]

/-- The closed module vocabulary of `log_activity`. -/
def valid_modules : List String :=
  [("dataset"), ("environmental"), ("pest"), ("area_point"), ("auth"), ("visualization"),
   ("settings")]

/-- The environmental-source vocabulary. -/
def valid_sources : List String := [("nasa_power"), ("microclimate"), ("manual")]

namespace MongoDb

/-- `database.validate_area_point_exists` (MongoDB backend): a bare
boolean existence test via `find_one`; it does not consult `is_active`
and never raises. -/
def validate_area_point_exists (aps : List AreaPoint) (area_point_id : String) : Bool :=
  aps.any (fun p => p.area_point_id == area_point_id)

/-- An environmental-data document of the MongoDB backend; `payload`
stands for the keyword-argument fields. -/
structure EnvRecord where
  area_point_id : String
  date : String
  source : String
  payload : List (String × Cell)
deriving DecidableEq

/-- `database.log_activity` (MongoDB backend): validates action and
module against the closed vocabularies, raising on any value outside
them, then appends one document and returns its id (modelled as the
index of the new entry). -/
def log_activity (logs : List LogEntry) (user action module entity_type : String)
    (entity_id details : Option String) : Except String (List LogEntry × Nat) :=
  if action ∉ valid_actions then Except.error (("Invalid action: ") ++ action)
  else if module ∉ valid_modules then Except.error (("Invalid module: ") ++ module)
  else Except.ok (logs ++ [⟨user, action, module, some entity_type, entity_id, details⟩],
    logs.length)

/-- `database.create_environmental_data` (MongoDB backend): raises when
the area point does not exist or the source is invalid; on a
(area_point_id, date, source) triple already present it hits the
unique index (`DuplicateKeyError`) and returns `None` leaving the
store unchanged; otherwise inserts and logs. -/
def create_environmental_data (aps : List AreaPoint) (store : List EnvRecord)
    (logs : List LogEntry) (area_point_id date source : String) (created_by : String)
    (payload : List (String × Cell)) :
    Except String (List EnvRecord × List LogEntry × Option Nat) :=
  if validate_area_point_exists aps area_point_id = false then
    Except.error (("Area point ") ++ area_point_id ++ (" does not exist"))
  else if source ∉ valid_sources then
    Except.error (("Invalid source: ") ++ source)
  else if store.any (fun r =>
      r.area_point_id == area_point_id && r.date == date && r.source == source) then
    Except.ok (store, logs, none)
  else
    match log_activity logs created_by ("create") ("environmental") ("environmental_data")
        (some area_point_id) none with
    | Except.ok (logs2, _) =>
      Except.ok (store ++ [⟨area_point_id, date, source, payload⟩], logs2, some store.length)
    | Except.error e => Except.error e

end MongoDb

namespace SqliteBackup

/-- `database_sqlite_backup.get_area_point_by_id`: the first stored row
with the given identifier, or `None`. -/
def get_area_point_by_id (aps : List AreaPoint) (area_point_id : String) : Option AreaPoint :=
  (aps.filter (fun p => p.area_point_id == area_point_id)).head?

/-- `database_sqlite_backup.validate_area_point_exists`: raises when
the area point is absent or inactive, returns normally otherwise. -/
def validate_area_point_exists (aps : List AreaPoint) (area_point_id : String) :
    Except String Unit :=
  match get_area_point_by_id aps area_point_id with
  | none => Except.error (("Area point ") ++ area_point_id ++ (" does not exist"))
  | some p =>
    if p.is_active = false then
      Except.error (("Area point ") ++ area_point_id ++ (" is not active"))
    else Except.ok ()

/-- `database_sqlite_backup.log_activity`: validates action and module
against the closed vocabularies, raising on any value outside them,
then inserts one row and returns its `lastrowid` (rows are numbered
from 1). -/
def log_activity (logs : List LogEntry) (user action module : String)
    (entity_type entity_id details : Option String) : Except String (List LogEntry × Nat) :=
  if action ∉ valid_actions then Except.error (("Invalid action: ") ++ action)
  else if module ∉ valid_modules then Except.error (("Invalid module: ") ++ module)
  else Except.ok (logs ++ [⟨user, action, module, entity_type, entity_id, details⟩],
    logs.length + 1)

/-- An `environmental_data` row of the SQLite backend; `payload` holds
the measurement columns. -/
structure EnvRecord where
  area_point_id : String
  date : Cell
  source : String
  created_by : String
  payload : List (String × Cell)
deriving DecidableEq

/-- The `{success, failed, errors}` result of the bulk environmental
importer. -/
structure EnvImportResult where
  success : Nat
  failed : Nat
  errors : List (EnvRecord × String)
deriving DecidableEq

/-- Why an INSERT of one environmental row raises, if it does: the
per-row area-point validation, the NOT NULL constraint on `date`, the
CHECK constraint on `source`, or the UNIQUE(area_point_id, date,
source) constraint against the rows already in the table. -/
def env_insert_error (aps : List AreaPoint) (envs : List EnvRecord) (r : EnvRecord) :
    Option String :=
  match validate_area_point_exists aps r.area_point_id with
  | Except.error e => some e
  | Except.ok _ =>
    if r.date = none then some ("NOT NULL constraint failed: environmental_data.date")
    else if r.source ∉ valid_sources then
      some ("CHECK constraint failed: environmental_data")
    else if envs.any (fun x =>
        x.area_point_id == r.area_point_id && x.date == r.date && x.source == r.source) then
      some ("UNIQUE constraint failed: environmental_data")
    else none

/-- The row loop of `bulk_create_environmental_data`: stamps
`created_by`, validates, inserts; a raising row is recorded in the
error list and the loop continues. -/
def bulk_env_loop (aps : List AreaPoint) (u : String) :
    List EnvRecord → List EnvRecord → Nat → List (EnvRecord × String) →
    List EnvRecord × Nat × List (EnvRecord × String)
  | [], envs, s, es => (envs, s, es)
  | r :: rest, envs, s, es =>
    let r2 : EnvRecord := { r with created_by := u }
    match env_insert_error aps envs r2 with
    | some e => bulk_env_loop aps u rest envs s (es ++ [(r2, e)])
    | none => bulk_env_loop aps u rest (envs ++ [r2]) (s + 1) es

/-- `database_sqlite_backup.bulk_create_environmental_data`: per-row
inserts with per-row failure isolation; returns the updated store and
the `{success, failed, errors}` summary. -/
def bulk_create_environmental_data (aps : List AreaPoint) (envs : List EnvRecord)
    (data_list : List EnvRecord) (created_by : String) : List EnvRecord × EnvImportResult :=
  let out := bulk_env_loop aps created_by data_list envs 0 []
  (out.1, ⟨out.2.1, out.2.2.length, out.2.2⟩)

/-- A `dataset_uploads` row. -/
structure UploadRecord where
  filename : String
  original_filename : String
  uploader : String
  row_count : Nat
  validation_status : String
  validation_errors : String
  file_size : Nat
  columns_detected : List String
  processing_status : String
deriving DecidableEq

/-- `database_sqlite_backup.create_dataset_upload`: required-field
checks, the CHECK constraints of the table, then the insert, returning
the new row id. -/
def create_dataset_upload (uploads : List UploadRecord) (data : UploadRecord) :
    Except String (List UploadRecord × Nat) :=
  if data.filename = "" then Except.error ("Missing required field: filename")
  else if data.original_filename = "" then
    Except.error ("Missing required field: original_filename")
  else if data.uploader = "" then Except.error ("Missing required field: uploader")
  else if data.validation_status ∉ [("valid"), ("invalid"), ("partial")] then
    Except.error ("CHECK constraint failed: dataset_uploads")
  else if data.processing_status ∉ [("pending"), ("processing"), ("completed"), ("failed")] then
    Except.error ("CHECK constraint failed: dataset_uploads")
  else Except.ok (uploads ++ [data], uploads.length + 1)

/-- `database_sqlite_backup.update_dataset_upload` specialized to the
one field the upload page updates: set `processing_status` on the row
with the given id (rows are numbered from 1). -/
def update_dataset_upload : List UploadRecord → Nat → String → List UploadRecord
  | [], _, _ => []
  | r :: rest, id, s =>
    if id = 1 then ({ r with processing_status := s }) :: rest
    else r :: update_dataset_upload rest (id - 1) s

end SqliteBackup

/-! ### Bulk pest importer (`pest_management.bulk_import_pest_data`) -/

/-- A `pest_records` row as built by the bulk importer. -/
structure PestRecord where
  area_point_id : String
  pest_type : String
  date : Cell
  year : Cell
  month : Cell
  day : Cell
  week_number : Cell
  count : Int
  rbb_count : Option Int
  wsb_count : Option Int
  created_by : String
deriving DecidableEq

/-- The `{success, failed, errors}` result of the bulk pest importer;
each error entry carries the row index and the exception message. -/
structure PestImportResult where
  success : Nat
  failed : Nat
  errors : List (Nat × String)
deriving DecidableEq

/-- The shared per-row fields of the record dict built by the import
loop. -/
structure PestBase where
  date : Cell
  year : Cell
  month : Cell
  day : Cell
  week_number : Cell
deriving DecidableEq

/-- `row.get(a, row.get(b))`: the first column name that is present
wins; both absent yields `None`. -/
def pyGetCol (hdr : List String) (r : List Cell) (a b : String) : Cell :=
  if a ∈ hdr then getCell hdr r a else if b ∈ hdr then getCell hdr r b else none

/-- The record dict built from one row by `bulk_import_pest_data`. -/
def row_base (hdr : List String) (r : List Cell) : PestBase :=
  ⟨(if ("date") ∈ hdr then getCell hdr r ("date") else none),
   pyGetCol hdr r ("Year") ("year"), pyGetCol hdr r ("Month") ("month"),
   pyGetCol hdr r ("Day") ("day"), pyGetCol hdr r ("Week_Number") ("week_number")⟩

/-- `col in row and row[col] > 0`: the value when the column is present
and strictly positive (NaN compares false), else `none`. -/
def pest_attempt (hdr : List String) (r : List Cell) (col : String) : Option ℚ :=
  if col ∈ hdr then
    match getCell hdr r col with
    | some v => if 0 < v then some v else none
    | none => none
  else none

/-- Why `create_pest_record` raises for one record of the bulk import
loop, if it does: empty area-point id, the per-row area-point
validation, or a NOT NULL constraint of `pest_records` (year, month,
day); the identical base fields make the reason the same for the RBB
and the WSB insert of one row. -/
def pest_insert_error (aps : List AreaPoint) (ap : String) (b : PestBase) : Option String :=
  if ap = "" then some ("area_point_id is required")
  else
    match SqliteBackup.validate_area_point_exists aps ap with
    | Except.error e => some e
    | Except.ok _ =>
      if b.year = none then some ("NOT NULL constraint failed: pest_records.year")
      else if b.month = none then some ("NOT NULL constraint failed: pest_records.month")
      else if b.day = none then some ("NOT NULL constraint failed: pest_records.day")
      else none

/-- The committed rbb record of one row (`int()` truncates; the value
is strictly positive here, so `floor` agrees). -/
def mk_rbb_record (ap u : String) (b : PestBase) (v : ℚ) : PestRecord :=
  ⟨ap, ("rbb"), b.date, b.year, b.month, b.day, b.week_number, v.floor, some v.floor, none, u⟩

/-- The committed wsb record of one row. -/
def mk_wsb_record (ap u : String) (b : PestBase) (v : ℚ) : PestRecord :=
  ⟨ap, ("wsb"), b.date, b.year, b.month, b.day, b.week_number, v.floor, none, some v.floor, u⟩

/-- One iteration of the import loop: try the RBB insert (only when
the column is present with a positive value), then the WSB insert; the
first exception ends the row, keeping any record already committed,
and is reported as the row's error.  Non-positive counts are skipped
without an error. -/
def row_outcome (aps : List AreaPoint) (hdr : List String) (r : List Cell) (ap u : String) :
    List PestRecord × Option String :=
  let b := row_base hdr r
  match pest_attempt hdr r ("RBB") with
  | some v =>
    match pest_insert_error aps ap b with
    | some e => ([], some e)
    | none =>
      let rbbRec := mk_rbb_record ap u b v
      match pest_attempt hdr r ("WSB") with
      | some w =>
        match pest_insert_error aps ap b with
        | some e => ([rbbRec], some e)
        | none => ([rbbRec, mk_wsb_record ap u b w], none)
      | none => ([rbbRec], none)
  | none =>
    match pest_attempt hdr r ("WSB") with
    | some w =>
      match pest_insert_error aps ap b with
      | some e => ([], some e)
      | none => ([mk_wsb_record ap u b w], none)
    | none => ([], none)

/-- The `for idx, row in df.iterrows()` loop of
`bulk_import_pest_data`, threading the store, the success count and
the error list. -/
def import_loop (aps : List AreaPoint) (hdr : List String) (ap u : String) :
    List (List Cell) → Nat → List PestRecord → Nat → List (Nat × String) →
    List PestRecord × Nat × List (Nat × String)
  | [], _, ps, s, es => (ps, s, es)
  | r :: rest, i, ps, s, es =>
    let out := row_outcome aps hdr r ap u
    import_loop aps hdr ap u rest (i + 1) (ps ++ out.1) (s + out.1.length)
      (es ++ (match out.2 with | some e => [(i, e)] | none => []))

/-- The indexed error list the loop produces, described row by row. -/
def row_errors_from (aps : List AreaPoint) (hdr : List String) (ap u : String) :
    Nat → List (List Cell) → List (Nat × String)
  | _, [] => []
  | i, r :: rest =>
    (match (row_outcome aps hdr r ap u).2 with | some e => [(i, e)] | none => []) ++
      row_errors_from aps hdr ap u (i + 1) rest

/-- The serialized detail payload of the batch summary log entry. -/
def pest_import_details (s f n : Nat) : String :=
  ("success_count=") ++ toString s ++ (", error_count=") ++ toString f ++
    (", total_rows=") ++ toString n

/-- `pest_management.bulk_import_pest_data`: reject an empty area-point
id, validate the area point once for the batch, run the per-row import
loop, then emit one summary activity-log entry and return the
`{success, failed, errors}` result. -/
def bulk_import_pest_data (aps : List AreaPoint) (pests : List PestRecord)
    (logs : List LogEntry) (df : Frame) (area_point_id created_by : String) :
    Except String (List PestRecord × List LogEntry × PestImportResult) :=
  if area_point_id = "" then Except.error ("area_point_id is required for bulk import")
  else
    match SqliteBackup.validate_area_point_exists aps area_point_id with
    | Except.error e => Except.error e
    | Except.ok _ =>
      let out := import_loop aps df.header area_point_id created_by df.rows 0 pests 0 []
      match SqliteBackup.log_activity logs created_by ("import") ("pest")
          (some ("pest_records")) (some area_point_id)
          (some (pest_import_details out.2.1 out.2.2.length df.rows.length)) with
      | Except.error e => Except.error e
      | Except.ok (logs2, _) => Except.ok (out.1, logs2, ⟨out.2.1, out.2.2.length, out.2.2⟩)

/-- The commits of every row, concatenated: what the loop adds to the
store. -/
def batch_commits (aps : List AreaPoint) (hdr : List String) (rows : List (List Cell))
    (ap u : String) : List PestRecord :=
  (rows.map (fun r => (row_outcome aps hdr r ap u).1)).flatten

/-! ### The Dataset Upload page import handler (`app.py`) -/

/-- The environmental record dict built from one row of the
environmental projection by the upload page (`row.get(...)` for each
measurement column); `created_by` is stamped later by the bulk
importer. -/
def env_record_of_row (hdr : List String) (ap : String) (r : List Cell) :
    SqliteBackup.EnvRecord :=
  let get := fun c => if c ∈ hdr then getCell hdr r c else none
  ⟨ap, get ("date"), ("manual"), (""),
   [(("temperature"), get ("T2M")), (("t2m_min"), get ("T2M_MIN")),
    (("t2m_max"), get ("T2M_MAX")), (("humidity"), get ("RH2M")),
    (("precipitation"), get ("PRECTOTCORR")), (("wind_speed"), get ("WS2M")),
    (("wind_speed_max"), get ("WS2M_MAX")), (("wind_speed_min"), get ("WS2M_MIN")),
    (("wind_direction"), get ("WD2M")), (("solar_radiation"), get ("CLRSKY_SFC_PAR_TOT")),
    (("uva"), get ("ALLSKY_SFC_UVA")), (("uvb"), get ("ALLSKY_SFC_UVB")),
    (("gwettop"), get ("GWETTOP"))]⟩

/-- The serialized detail payload of the page's upload log entry. -/
def upload_log_details (ap fname : String) : String :=
  ("area_point_id=") ++ ap ++ (", filename=") ++ fname

/-- The stores the upload handler touches. -/
structure World where
  uploads : List SqliteBackup.UploadRecord
  envs : List SqliteBackup.EnvRecord
  pests : List PestRecord
  logs : List LogEntry
deriving DecidableEq

/-- The import branch of the Dataset Upload page: create the upload
job (status `processing`), run the environmental and pest bulk imports
on the domain projections, mark the job `completed`, and log the
upload.  An escaping exception is the page's catch-all error branch. -/
def dataset_upload_import_handler (aps : List AreaPoint) (w : World) (df : Frame)
    (area_point original_filename username : String)
    (import_environmental import_pest : Bool) (file_size : Nat) : Except String World :=
  let validation := validate_pest_dataset df
  let domains := chop_dataset_by_domain df
  let upload_data : SqliteBackup.UploadRecord :=
    ⟨area_point ++ ("_") ++ original_filename, original_filename, username, df.rows.length,
     (if validation.valid = true then ("valid") else ("invalid")),
     joinComma validation.errors, file_size, df.header, ("processing")⟩
  match SqliteBackup.create_dataset_upload w.uploads upload_data with
  | Except.error e => Except.error e
  | Except.ok (uploads2, upload_id) =>
    let envStep :=
      if import_environmental = true ∧ 0 < domains.environmental.rows.length then
        SqliteBackup.bulk_create_environmental_data aps w.envs
          (domains.environmental.rows.map
            (env_record_of_row domains.environmental.header area_point)) username
      else (w.envs, ⟨0, 0, []⟩)
    let pestStep :=
      if import_pest = true ∧ 0 < domains.pest.rows.length then
        bulk_import_pest_data aps w.pests w.logs domains.pest area_point username
      else Except.ok (w.pests, w.logs, ⟨0, 0, []⟩)
    match pestStep with
    | Except.error e => Except.error e
    | Except.ok (pests2, logs2, _) =>
      let uploads3 := SqliteBackup.update_dataset_upload uploads2 upload_id ("completed")
      match SqliteBackup.log_activity logs2 username ("upload") ("dataset")
          (some ("dataset_uploads")) (some (toString upload_id))
          (some (upload_log_details area_point original_filename)) with
      | Except.error e => Except.error e
      | Except.ok (logs3, _) => Except.ok ⟨uploads3, envStep.1, pests2, logs3⟩

/-- An area-point store holding one existing but soft-deleted
(inactive) area point. -/
def aps_inactive : List AreaPoint := [⟨("AP1"), false⟩]

/-- One well-formed single-row pest table. -/
def c3_table : Frame :=
  ⟨[("Year"), ("Month"), ("Day"), ("RBB")], [[some 2021, some 7, some 15, some 5]]⟩

/-- An area-point store holding one active area point. -/
def aps_active : List AreaPoint := [⟨("AP1"), true⟩]

/-- The mongo-backend environmental store of the C4 witness. -/
def mongo_env_store : List MongoDb.EnvRecord := [⟨("AP1"), ("2021-07-15"), ("manual"), []⟩]

/-- The sqlite-backend environmental store of the C4 witness. -/
def sqlite_env_store : List SqliteBackup.EnvRecord :=
  [⟨("AP1"), some 20210715, ("manual"), ("u"), []⟩]

/-- The record whose re-ingestion the C4 witness attempts. -/
def sqlite_env_rec : SqliteBackup.EnvRecord := ⟨("AP1"), some 20210715, ("manual"), (""), []⟩

/-- A one-row batch whose single row is malformed: a negative RBB
count (N = 1, K = 1). -/
def c1_table : Frame :=
  ⟨[("Year"), ("Month"), ("Day"), ("RBB")], [[some 2021, some 7, some 15, some (-1)]]⟩

/-- A two-row batch: a well-formed row, then a row whose insert raises
(missing year, a NOT NULL column). -/
def c1_mixed_table : Frame :=
  ⟨[("Year"), ("Month"), ("Day"), ("RBB")],
   [[some 2021, some 7, some 15, some 5], [none, some 7, some 16, some 4]]⟩

/-- The example table of the C2 scenario: columns Year, Month, Day,
Week_Number, RBB, WSB, T2M, RH2M and 5 rows with RBB = -1 in row 3. -/
def c2_table : Frame :=
  ⟨[("Year"), ("Month"), ("Day"), ("Week_Number"), ("RBB"), ("WSB"), ("T2M"), ("RH2M")],
   [[some 2021, some 7, some 11, some 28, some 5, some 2, some 30, some 80],
    [some 2021, some 7, some 12, some 28, some 3, some 1, some 30, some 81],
    [some 2021, some 7, some 13, some 28, some (-1), some 4, some 29, some 79],
    [some 2021, some 7, some 14, some 28, some 2, some 2, some 31, some 82],
    [some 2021, some 7, some 15, some 28, some 7, some 3, some 30, some 80]]⟩


/-! ### Theorems -/

theorem list_map_eq_self {α : Type} {l : List α} {f : α → α} (h : ∀ a ∈ l, f a = a) :
    l.map f = l := by
  induction l with
  | nil => rfl
  | cons a t ih =>
    simp only [List.map_cons]
    rw [h a (List.mem_cons_self a t), ih (fun b hb => h b (List.mem_cons_of_mem a hb))]

theorem list_filter_map_comm {α β : Type} (f : α → β) (p : β → Bool) (q : α → Bool)
    (h : ∀ a, p (f a) = q a) (l : List α) :
    (l.map f).filter p = (l.filter q).map f := by
  induction l with
  | nil => rfl
  | cons a t ih =>
    simp only [List.map_cons, List.filter_cons, h a]
    cases hq : q a with
    | true => simp [ih]
    | false => simp [ih]

theorem list_getLast?_map {α β : Type} (f : α → β) (l : List α) :
    (l.map f).getLast? = l.getLast?.map f := by
  induction l with
  | nil => rfl
  | cons a t ih =>
    cases t with
    | nil => rfl
    | cons b u =>
      simp only [List.map_cons] at *
      rw [List.getLast?_cons_cons, List.getLast?_cons_cons, ih]

theorem list_getLast?_mem {α : Type} {l : List α} {a : α} (h : l.getLast? = some a) :
    a ∈ l := by
  induction l with
  | nil => simp [List.getLast?] at h
  | cons b t ih =>
    cases t with
    | nil =>
      simp only [List.getLast?_singleton, Option.some.injEq] at h
      simp [h]
    | cons c u =>
      rw [List.getLast?_cons_cons] at h
      exact List.mem_cons_of_mem b (ih h)

theorem list_getLast?_of_ne_nil {α : Type} {l : List α} (h : l ≠ []) :
    ∃ a, l.getLast? = some a := by
  cases l with
  | nil => exact absurd rfl h
  | cons a t =>
    induction t generalizing a with
    | nil => exact ⟨a, rfl⟩
    | cons b u ih =>
      obtain ⟨c, hc⟩ := ih b (by simp)
      exact ⟨c, by rw [List.getLast?_cons_cons]; exact hc⟩

theorem list_lookup_mem {α β : Type} [BEq α] [LawfulBEq α] {l : List (α × β)} {k : α} {v : β}
    (h : l.lookup k = some v) : (k, v) ∈ l := by
  induction l with
  | nil => simp [List.lookup] at h
  | cons p t ih =>
    rw [List.lookup] at h
    cases hb : k == p.1 with
    | true =>
      rw [hb] at h
      simp only [Option.some.injEq] at h
      obtain ⟨a, b⟩ := p
      have hk : k = a := eq_of_beq hb
      subst hk
      subst h
      exact List.mem_cons_self _ _
    | false =>
      rw [hb] at h
      exact List.mem_cons_of_mem p (ih h)

theorem mapping_value_toLower :
    ∀ p ∈ column_mapping, lowerStr p.2 = p.1 := by decide

theorem toLower_renameCol (cols : List String) (c : String) :
    lowerStr (renameCol cols c) = (lowerStr c) := by
  cases hm : column_mapping.lookup (lowerStr c) with
  | none => simp only [renameCol, hm]
  | some std =>
    have hstd : (lowerStr std) = (lowerStr c) := mapping_value_toLower _ (list_lookup_mem hm)
    by_cases hl : lastWithLower cols (lowerStr c) = some c
    · simp only [renameCol, hm, if_pos hl]; exact hstd
    · simp only [renameCol, hm, if_neg hl]

theorem renameCol_fixed (cols : List String) (c : String) (hc : c ∈ cols) :
    renameCol (cols.map (renameCol cols)) (renameCol cols c) = renameCol cols c := by
  cases hm : column_mapping.lookup (lowerStr c) with
  | none =>
    have h1 : renameCol cols c = c := by simp only [renameCol, hm]
    rw [h1]
    simp only [renameCol, hm]
  | some std =>
    have hstd : (lowerStr std) = (lowerStr c) := mapping_value_toLower _ (list_lookup_mem hm)
    -- the last column of `cols` whose lowercase form is `(lowerStr c)` is renamed to `std`
    have hfilne : cols.filter (fun x => lowerStr x == (lowerStr c)) ≠ [] := by
      have : c ∈ cols.filter (fun x => lowerStr x == (lowerStr c)) :=
        List.mem_filter.2 ⟨hc, by simp⟩
      exact List.ne_nil_of_mem this
    obtain ⟨z, hz⟩ := list_getLast?_of_ne_nil hfilne
    have hzmem := list_getLast?_mem hz
    have hzl : (lowerStr z) = (lowerStr c) := by
      have := (List.mem_filter.1 hzmem).2
      simpa using this
    have hzlast : lastWithLower cols (lowerStr c) = some z := hz
    have hfz : renameCol cols z = std := by
      have hml : column_mapping.lookup (lowerStr z) = some std := by rw [hzl]; exact hm
      have hlz : lastWithLower cols (lowerStr z) = some z := by rw [hzl]; exact hzlast
      simp only [renameCol, hml, if_pos hlz]
    have hmapped : lastWithLower (cols.map (renameCol cols)) (lowerStr c) = some std := by
      unfold lastWithLower
      rw [list_filter_map_comm (renameCol cols) (fun x => lowerStr x == (lowerStr c))
            (fun x => lowerStr x == (lowerStr c))
            (fun a => by simp only [toLower_renameCol]) cols]
      rw [list_getLast?_map]
      rw [hz]
      simp [hfz]
    by_cases hl : lastWithLower cols (lowerStr c) = some c
    · -- c is renamed to std; the canonical name maps to itself either way
      have h1 : renameCol cols c = std := by simp only [renameCol, hm, if_pos hl]
      rw [h1]
      have hms : column_mapping.lookup (lowerStr std) = some std := by rw [hstd]; exact hm
      simp only [renameCol, hms, ite_self]
    · -- c passes through; in the renamed header the representative is std
      have h1 : renameCol cols c = c := by simp only [renameCol, hm, if_neg hl]
      rw [h1]
      by_cases hcs : c = std
      · subst hcs
        simp only [renameCol, hm, ite_self]
      · have hne : ¬ lastWithLower (cols.map (renameCol cols)) (lowerStr c) = some c := by
          rw [hmapped]
          intro hcon
          injection hcon with h2
          exact hcs h2.symm
        simp only [renameCol, hm, if_neg hne]

/-- C5: normalizing a table twice equals normalizing it once (the
column renaming is idempotent), and normalization is a pure renaming
of column names that leaves the row data of the table unchanged. -/
theorem normalize_column_names_idempotent (df : Frame) :
    normalize_column_names (normalize_column_names df) = normalize_column_names df ∧
    (normalize_column_names df).rows = df.rows := by
  refine ⟨?_, rfl⟩
  show Frame.mk ((df.header.map (renameCol df.header)).map
      (renameCol (df.header.map (renameCol df.header)))) df.rows =
    Frame.mk (df.header.map (renameCol df.header)) df.rows
  congr 1
  apply list_map_eq_self
  intro d hd
  obtain ⟨c, hc, rfl⟩ := List.mem_map.1 hd
  exact renameCol_fixed df.header c hc

theorem list_isEmpty_iff {α : Type} (l : List α) : l.isEmpty = true ↔ l = [] := by
  cases l <;> simp

/-- C10: the structural check is case-insensitive but the range checks
fire only on the exact names Year/year, Month/month, Day/day, RBB, WSB;
a non-empty table whose required columns appear only under other
casings validates as `valid = true` whatever values it contains. -/
theorem validator_skips_range_checks_on_other_casings (df : Frame)
    (hmiss : missingFrom df.header required_columns = [])
    (hrows : df.rows ≠ [])
    (hY : ("Year") ∉ df.header) (hy : ("year") ∉ df.header)
    (hM : ("Month") ∉ df.header) (hm2 : ("month") ∉ df.header)
    (hD : ("Day") ∉ df.header) (hd2 : ("day") ∉ df.header)
    (hR : ("RBB") ∉ df.header) (hW : ("WSB") ∉ df.header) :
    (validate_pest_dataset df).valid = true := by
  have hlen : 0 < df.rows.length := List.length_pos.2 hrows
  have h1 : rangeCheck df ("Year") ("year") 2000 2100 ("year") = [] := by
    simp [rangeCheck, hY, hy]
  have h2 : rangeCheck df ("Month") ("month") 1 12 ("month") = [] := by
    simp [rangeCheck, hM, hm2]
  have h3 : rangeCheck df ("Day") ("day") 1 31 ("day") = [] := by
    simp [rangeCheck, hD, hd2]
  have h4 : pestCheck df ("RBB") = [] := by simp [pestCheck, hR]
  have h5 : pestCheck df ("WSB") = [] := by simp [pestCheck, hW]
  simp [validate_pest_dataset, hmiss, h1, h2, h3, h4, h5]

/-- Witness for C10: the concrete table `c10_table` satisfies every
hypothesis, carries an out-of-range year and negative pest counts,
and still validates. -/
theorem validator_skips_range_checks_on_other_casings_witness :
    (missingFrom c10_table.header required_columns = [] ∧ c10_table.rows ≠ [] ∧
      ("Year") ∉ c10_table.header ∧ ("year") ∉ c10_table.header ∧
      ("Month") ∉ c10_table.header ∧ ("month") ∉ c10_table.header ∧
      ("Day") ∉ c10_table.header ∧ ("day") ∉ c10_table.header ∧
      ("RBB") ∉ c10_table.header ∧ ("WSB") ∉ c10_table.header ∧
      countOutside c10_table ("YEAR") 2000 2100 = 1 ∧
      countNegative c10_table ("rbb") = 1) ∧
    (validate_pest_dataset c10_table).valid = true := by
  refine ⟨by decide, ?_⟩
  exact validator_skips_range_checks_on_other_casings c10_table (by decide) (by decide)
    (by decide) (by decide) (by decide) (by decide) (by decide) (by decide) (by decide)
    (by decide)

theorem import_loop_spec (aps : List AreaPoint) (hdr : List String) (ap u : String)
    (rows : List (List Cell)) :
    ∀ (i : Nat) (ps : List PestRecord) (s : Nat) (es : List (Nat × String)),
    import_loop aps hdr ap u rows i ps s es =
      (ps ++ batch_commits aps hdr rows ap u,
       s + (batch_commits aps hdr rows ap u).length,
       es ++ row_errors_from aps hdr ap u i rows) := by
  induction rows with
  | nil =>
    intro i ps s es
    simp [import_loop, row_errors_from, batch_commits]
  | cons r rest ih =>
    intro i ps s es
    simp only [import_loop, row_errors_from, batch_commits, List.map_cons, List.flatten_cons]
    rw [ih]
    simp only [batch_commits] at *
    refine Prod.ext ?_ (Prod.ext ?_ ?_)
    · simp [List.append_assoc]
    · simp [List.length_append, Nat.add_assoc]
    · simp [List.append_assoc]

/-- The full behaviour of `bulk_import_pest_data` on a batch whose
area point validates: it returns normally, appends the per-row commits
of every row to the store, logs exactly one summary entry, and reports
the per-row error list; no row's outcome influences any other row. -/
theorem bulk_import_pest_data_spec (aps : List AreaPoint) (pests : List PestRecord)
    (logs : List LogEntry) (df : Frame) (ap u : String)
    (hap : ap ≠ "")
    (hval : SqliteBackup.validate_area_point_exists aps ap = Except.ok ()) :
    bulk_import_pest_data aps pests logs df ap u =
      Except.ok
        (pests ++ batch_commits aps df.header df.rows ap u,
         logs ++ [⟨u, ("import"), ("pest"), some ("pest_records"), some ap,
           some (pest_import_details (batch_commits aps df.header df.rows ap u).length
             (row_errors_from aps df.header ap u 0 df.rows).length df.rows.length)⟩],
         ⟨(batch_commits aps df.header df.rows ap u).length,
          (row_errors_from aps df.header ap u 0 df.rows).length,
          row_errors_from aps df.header ap u 0 df.rows⟩) := by
  have hact : ¬ ("import") ∉ valid_actions := by decide
  have hmod : ¬ ("pest") ∉ valid_modules := by decide
  simp only [bulk_import_pest_data, if_neg hap, hval]
  rw [import_loop_spec]
  simp only [SqliteBackup.log_activity, if_neg hact, if_neg hmod, List.nil_append,
    Nat.zero_add]

theorem string_append_ne_empty (a b : String) (h : a ≠ "") : a ++ b ≠ "" := by
  cases a with
  | mk d1 =>
    cases b with
    | mk d2 =>
      intro hc
      apply h
      have h2 : d1 ++ d2 = ([] : List Char) := congrArg String.data hc
      have h3 : d1 = [] := (List.append_eq_nil.1 h2).1
      rw [h3]

theorem update_dataset_upload_append (l : List SqliteBackup.UploadRecord)
    (d : SqliteBackup.UploadRecord) (s : String) :
    SqliteBackup.update_dataset_upload (l ++ [d]) (l.length + 1) s =
      l ++ [{ d with processing_status := s }] := by
  induction l with
  | nil => simp [SqliteBackup.update_dataset_upload]
  | cons r rest ih =>
    simp only [List.cons_append, SqliteBackup.update_dataset_upload, List.length_cons]
    rw [if_neg (by omega)]
    have harith : rest.length + 1 + 1 - 1 = rest.length + 1 := by omega
    rw [harith]
    exact congrArg (r :: ·) ih

/-- C9: both implementations of `log_activity` raise exactly when the
action is outside the closed action vocabulary or the module is
outside the closed module vocabulary; every in-vocabulary call appends
exactly one audit entry and returns its id (the SQLite `lastrowid`,
respectively the index of the inserted MongoDB document). -/
theorem log_activity_closed_vocabulary :
    (∀ (logs : List LogEntry) (user action module : String)
        (entity_type entity_id details : Option String),
      match SqliteBackup.log_activity logs user action module entity_type entity_id details with
      | Except.ok p => action ∈ valid_actions ∧ module ∈ valid_modules ∧
          p.1 = logs ++ [⟨user, action, module, entity_type, entity_id, details⟩] ∧
          p.2 = logs.length + 1
      | Except.error _ => action ∉ valid_actions ∨ module ∉ valid_modules) ∧
    (∀ (logs : List LogEntry) (user action module entity_type : String)
        (entity_id details : Option String),
      match MongoDb.log_activity logs user action module entity_type entity_id details with
      | Except.ok p => action ∈ valid_actions ∧ module ∈ valid_modules ∧
          p.1 = logs ++ [⟨user, action, module, some entity_type, entity_id, details⟩] ∧
          p.2 = logs.length
      | Except.error _ => action ∉ valid_actions ∨ module ∉ valid_modules) := by
  constructor
  · intro logs user action module et ei d
    unfold SqliteBackup.log_activity
    by_cases ha : action ∉ valid_actions
    · rw [if_pos ha]
      exact Or.inl ha
    · rw [if_neg ha]
      by_cases hm : module ∉ valid_modules
      · rw [if_pos hm]
        exact Or.inr hm
      · rw [if_neg hm]
        exact ⟨not_not.1 ha, not_not.1 hm, rfl, rfl⟩
  · intro logs user action module et ei d
    unfold MongoDb.log_activity
    by_cases ha : action ∉ valid_actions
    · rw [if_pos ha]
      exact Or.inl ha
    · rw [if_neg ha]
      by_cases hm : module ∉ valid_modules
      · rw [if_pos hm]
        exact Or.inr hm
      · rw [if_neg hm]
        exact ⟨not_not.1 ha, not_not.1 hm, rfl, rfl⟩

/-- C3: at the failing input (an area point that exists but is
inactive), `database.validate_area_point_exists` — the function
`bulk_import_pest_data` imports and whose boolean result it discards —
answers `true`, so the referential guard of the claim cannot reject
the batch there; the sqlite-backup implementation of the same guard
raises as the claim describes, and the bulk importer wired to it fails
the whole batch before any write. -/
theorem inactive_area_point_guard_divergence :
    MongoDb.validate_area_point_exists aps_inactive ("AP1") = true ∧
    SqliteBackup.validate_area_point_exists aps_inactive ("AP1") =
      Except.error (("Area point AP1 is not active")) ∧
    bulk_import_pest_data aps_inactive [] [] c3_table ("AP1") ("u") =
      Except.error (("Area point AP1 is not active")) := by
  decide

/-- C4: re-ingesting an environmental record whose (area point, date,
source) triple already exists is rejected as a duplicate: the MongoDB
`create_environmental_data` hits the unique index and returns `None`
with the store unchanged (no second record, no overwrite), and the
SQLite bulk importer counts the row as one failure against the UNIQUE
constraint, also leaving the store unchanged. -/
theorem environmental_triple_uniqueness_guard :
    (∀ (aps : List AreaPoint) (store : List MongoDb.EnvRecord) (logs : List LogEntry)
        (ap date source created_by : String) (payload : List (String × Cell)),
      MongoDb.validate_area_point_exists aps ap = true →
      source ∈ valid_sources →
      store.any (fun r =>
        r.area_point_id == ap && r.date == date && r.source == source) = true →
      MongoDb.create_environmental_data aps store logs ap date source created_by payload =
        Except.ok (store, logs, none)) ∧
    (∀ (aps : List AreaPoint) (envs : List SqliteBackup.EnvRecord)
        (r : SqliteBackup.EnvRecord) (u : String),
      SqliteBackup.validate_area_point_exists aps r.area_point_id = Except.ok () →
      r.date ≠ none →
      r.source ∈ valid_sources →
      envs.any (fun x => x.area_point_id == r.area_point_id && x.date == r.date &&
        x.source == r.source) = true →
      SqliteBackup.bulk_create_environmental_data aps envs [r] u =
        (envs, ⟨0, 1, [({ r with created_by := u },
          ("UNIQUE constraint failed: environmental_data"))]⟩)) := by
  constructor
  · intro aps store logs ap date source cb payload hap hsrc hdup
    unfold MongoDb.create_environmental_data
    rw [if_neg (by intro h; rw [hap] at h; exact Bool.noConfusion h),
      if_neg (not_not.2 hsrc), if_pos hdup]
  · intro aps envs r u hval hdate hsrc hdup
    have e1 : ({ r with created_by := u } : SqliteBackup.EnvRecord).area_point_id =
        r.area_point_id := rfl
    have e2 : ({ r with created_by := u } : SqliteBackup.EnvRecord).date = r.date := rfl
    have e3 : ({ r with created_by := u } : SqliteBackup.EnvRecord).source = r.source := rfl
    have herr : SqliteBackup.env_insert_error aps envs ({ r with created_by := u }) =
        some ("UNIQUE constraint failed: environmental_data") := by
      simp only [SqliteBackup.env_insert_error, e1, e2, e3, hval]
      rw [if_neg hdate, if_neg (not_not.2 hsrc), if_pos hdup]
    simp only [SqliteBackup.bulk_create_environmental_data, SqliteBackup.bulk_env_loop, herr,
      List.nil_append, List.length_cons, List.length_nil]

/-- Witness for C4 at a concrete duplicate triple in each backend. -/
theorem environmental_triple_uniqueness_guard_witness :
    (MongoDb.validate_area_point_exists aps_active ("AP1") = true ∧
      ("manual") ∈ valid_sources ∧
      mongo_env_store.any (fun r => r.area_point_id == ("AP1") &&
        r.date == ("2021-07-15") && r.source == ("manual")) = true ∧
      SqliteBackup.validate_area_point_exists aps_active sqlite_env_rec.area_point_id =
        Except.ok () ∧
      sqlite_env_rec.date ≠ none ∧ sqlite_env_rec.source ∈ valid_sources ∧
      sqlite_env_store.any (fun x => x.area_point_id == sqlite_env_rec.area_point_id &&
        x.date == sqlite_env_rec.date && x.source == sqlite_env_rec.source) = true) ∧
    MongoDb.create_environmental_data aps_active mongo_env_store [] ("AP1") ("2021-07-15")
      ("manual") ("u") [] = Except.ok (mongo_env_store, [], none) ∧
    SqliteBackup.bulk_create_environmental_data aps_active sqlite_env_store [sqlite_env_rec]
      ("u") = (sqlite_env_store, ⟨0, 1,
        [(⟨("AP1"), some 20210715, ("manual"), ("u"), []⟩,
          ("UNIQUE constraint failed: environmental_data"))]⟩) := by
  refine ⟨by decide, ?_, ?_⟩
  · exact environmental_triple_uniqueness_guard.1 aps_active mongo_env_store [] ("AP1")
      ("2021-07-15") ("manual") ("u") [] (by decide) (by decide) (by decide)
  · exact environmental_triple_uniqueness_guard.2 aps_active sqlite_env_store sqlite_env_rec
      ("u") (by decide) (by decide) (by decide) (by decide)

theorem bulk_env_loop_spec (aps : List AreaPoint) (u : String)
    (lst : List SqliteBackup.EnvRecord) :
    ∀ (envs : List SqliteBackup.EnvRecord) (s : Nat) (es : List (SqliteBackup.EnvRecord × String)),
    (SqliteBackup.bulk_env_loop aps u lst envs s es).2.1 +
        (SqliteBackup.bulk_env_loop aps u lst envs s es).2.2.length =
      s + es.length + lst.length ∧
    (SqliteBackup.bulk_env_loop aps u lst envs s es).1.length + s =
      envs.length + (SqliteBackup.bulk_env_loop aps u lst envs s es).2.1 := by
  induction lst with
  | nil =>
    intro envs s es
    simp [SqliteBackup.bulk_env_loop]
  | cons r rest ih =>
    intro envs s es
    simp only [SqliteBackup.bulk_env_loop]
    cases herr : SqliteBackup.env_insert_error aps envs ({ r with created_by := u }) with
    | some e =>
      have h := ih envs s (es ++ [({ r with created_by := u }, e)])
      simp only [List.length_append, List.length_cons, List.length_nil] at h ⊢
      omega
    | none =>
      have h := ih (envs ++ [{ r with created_by := u }]) (s + 1) es
      simp only [List.length_append, List.length_cons, List.length_nil] at h ⊢
      omega

/-- C1 (amended): neither importer aborts a batch on a row failure.
The pest importer equals the independent composition of its per-row
outcomes: it commits exactly the per-row records of every row, counts
as failed exactly the rows whose attempted insert raised, and reports
them in the error list — but a row whose pest counts are not positive
(including the malformed negative counts) is skipped silently,
contributing neither a commit nor a failure.  The environmental bulk
importer accounts every row as either one success or one failure and
commits exactly the successes. -/
theorem bulk_import_partial_failure_amended :
    (∀ (aps : List AreaPoint) (pests : List PestRecord) (logs : List LogEntry) (df : Frame)
        (ap u : String), ap ≠ "" →
      SqliteBackup.validate_area_point_exists aps ap = Except.ok () →
      bulk_import_pest_data aps pests logs df ap u =
        Except.ok
          (pests ++ batch_commits aps df.header df.rows ap u,
           logs ++ [⟨u, ("import"), ("pest"), some ("pest_records"), some ap,
             some (pest_import_details (batch_commits aps df.header df.rows ap u).length
               (row_errors_from aps df.header ap u 0 df.rows).length df.rows.length)⟩],
           ⟨(batch_commits aps df.header df.rows ap u).length,
            (row_errors_from aps df.header ap u 0 df.rows).length,
            row_errors_from aps df.header ap u 0 df.rows⟩)) ∧
    (∀ (aps : List AreaPoint) (envs : List SqliteBackup.EnvRecord)
        (data_list : List SqliteBackup.EnvRecord) (u : String),
      (SqliteBackup.bulk_create_environmental_data aps envs data_list u).2.success +
        (SqliteBackup.bulk_create_environmental_data aps envs data_list u).2.failed =
          data_list.length ∧
      (SqliteBackup.bulk_create_environmental_data aps envs data_list u).1.length =
        envs.length +
          (SqliteBackup.bulk_create_environmental_data aps envs data_list u).2.success) := by
  constructor
  · intro aps pests logs df ap u hap hval
    exact bulk_import_pest_data_spec aps pests logs df ap u hap hval
  · intro aps envs data_list u
    have h := bulk_env_loop_spec aps u data_list envs 0 []
    simp only [SqliteBackup.bulk_create_environmental_data]
    simp only [List.length_nil, Nat.add_zero, Nat.zero_add] at h
    exact ⟨h.1, by omega⟩

/-- Counterexample to C1 as stated: on the batch `c1_table` with
exactly K = 1 malformed row, the importer reports 0 failures, not
K = 1 — the negative count is skipped silently (success = 0,
failed = 0, empty error list, and the summary log entry records the
same counts). -/
theorem bulk_import_negative_count_silent_counterexample :
    bulk_import_pest_data aps_active [] [] c1_table ("AP1") ("u") =
      Except.ok ([], [⟨("u"), ("import"), ("pest"), some ("pest_records"), some ("AP1"),
        some (pest_import_details 0 0 1)⟩], ⟨0, 0, []⟩) ∧
    ¬ (Except.map (fun t => t.2.2.failed)
        (bulk_import_pest_data aps_active [] [] c1_table ("AP1") ("u")) = Except.ok 1) := by
  decide

/-- Witness for C1 (amended) at a concrete batch: the failing second
row is counted as one failure and does not stop the first row's
commit. -/
theorem bulk_import_partial_failure_amended_witness :
    (("AP1") ≠ "" ∧
      SqliteBackup.validate_area_point_exists aps_active ("AP1") = Except.ok ()) ∧
    Except.map (fun t => (t.2.2.success, t.2.2.failed))
        (bulk_import_pest_data aps_active [] [] c1_mixed_table ("AP1") ("u")) =
      Except.ok (1, 1) := by
  refine ⟨⟨by decide, by decide⟩, ?_⟩
  rw [bulk_import_partial_failure_amended.1 aps_active [] [] c1_mixed_table ("AP1") ("u")
    (by decide) (by decide)]
  decide

/-- Counterexample to C2 as stated: on the scenario table the
structural check indeed passes (the only error is the aggregate
negative-RBB line, no missing-column error), but the pest importer
reports failed = 0, not failed = 1 — the bad RBB insert of row 3 is
skipped silently, not attributed as a failure. -/
theorem example_scenario_counterexample :
    (validate_pest_dataset c2_table).errors = [("Negative RBB values found: 1 rows")] ∧
    Except.map (fun t => t.2.2.failed)
        (bulk_import_pest_data aps_active [] [] (chop_dataset_by_domain c2_table).pest
          ("AP1") ("uploader")) = Except.ok 0 ∧
    ¬ (Except.map (fun t => t.2.2.failed)
        (bulk_import_pest_data aps_active [] [] (chop_dataset_by_domain c2_table).pest
          ("AP1") ("uploader")) = Except.ok 1) := by
  decide

/-- C2 (amended): on the scenario table the structural check passes
but overall validation fails with the aggregate negative-RBB error
line; run on the pest projection, the importer reports success = 9
(4 RBB + 5 WSB inserts) and failed = 0 with an empty error list —
row 3's negative RBB is silently skipped, not counted as a failure. -/
theorem example_scenario_amended :
    validate_pest_dataset c2_table =
      ⟨false, [("Negative RBB values found: 1 rows")],
       [("Missing environmental columns: T2M_MIN, T2M_MAX, PRECTOTCORR")], 5, 8⟩ ∧
    Except.map (fun t => t.2.2)
        (bulk_import_pest_data aps_active [] [] (chop_dataset_by_domain c2_table).pest
          ("AP1") ("uploader")) = Except.ok (⟨9, 0, []⟩ : PestImportResult) := by
  decide

theorem create_dataset_upload_ok (uploads : List SqliteBackup.UploadRecord)
    (d : SqliteBackup.UploadRecord) (h1 : d.filename ≠ "") (h2 : d.original_filename ≠ "")
    (h3 : d.uploader ≠ "")
    (h4 : d.validation_status ∈ [("valid"), ("invalid"), ("partial")])
    (h5 : d.processing_status ∈ [("pending"), ("processing"), ("completed"), ("failed")]) :
    SqliteBackup.create_dataset_upload uploads d =
      Except.ok (uploads ++ [d], uploads.length + 1) := by
  unfold SqliteBackup.create_dataset_upload
  rw [if_neg h1, if_neg h2, if_neg h3, if_neg (not_not.2 h4), if_neg (not_not.2 h5)]

/-- C8: on a batch whose area point validates, the upload handler
completes: the pest import loop emits exactly one activity-log entry —
the batch summary carrying the success and failure counts — never one
entry per row, the page then adds its single upload entry, and the
upload job's `processing_status` is set to `completed` whatever the
per-row failures were (the rows of the table are unconstrained here). -/
theorem import_completion_and_single_summary_log (aps : List AreaPoint) (w : World)
    (df : Frame) (ap orig u : String) (imp_env : Bool) (fsize : Nat)
    (hap : ap ≠ "")
    (hval : SqliteBackup.validate_area_point_exists aps ap = Except.ok ())
    (horig : orig ≠ "") (hu : u ≠ "")
    (hpest : 0 < (chop_dataset_by_domain df).pest.rows.length) :
    ∃ w2, dataset_upload_import_handler aps w df ap orig u imp_env true fsize =
        Except.ok w2 ∧
      w2.uploads = w.uploads ++
        [⟨ap ++ ("_") ++ orig, orig, u, df.rows.length,
          (if (validate_pest_dataset df).valid = true then ("valid") else ("invalid")),
          joinComma (validate_pest_dataset df).errors, fsize, df.header, ("completed")⟩] ∧
      w2.logs = w.logs ++
        [⟨u, ("import"), ("pest"), some ("pest_records"), some ap,
          some (pest_import_details
            (batch_commits aps (chop_dataset_by_domain df).pest.header
              (chop_dataset_by_domain df).pest.rows ap u).length
            (row_errors_from aps (chop_dataset_by_domain df).pest.header ap u 0
              (chop_dataset_by_domain df).pest.rows).length
            (chop_dataset_by_domain df).pest.rows.length)⟩,
         ⟨u, ("upload"), ("dataset"), some ("dataset_uploads"),
          some (toString (w.uploads.length + 1)), some (upload_log_details ap orig)⟩] := by
  have hcreate := create_dataset_upload_ok w.uploads
    ⟨ap ++ ("_") ++ orig, orig, u, df.rows.length,
     (if (validate_pest_dataset df).valid = true then ("valid") else ("invalid")),
     joinComma (validate_pest_dataset df).errors, fsize, df.header, ("processing")⟩
    (string_append_ne_empty (ap ++ ("_")) orig (string_append_ne_empty ap ("_") hap))
    horig hu
    (by show (if (validate_pest_dataset df).valid = true then ("valid") else ("invalid")) ∈
          [("valid"), ("invalid"), ("partial")]
        split
        · decide
        · decide)
    (by show ("processing") ∈ [("pending"), ("processing"), ("completed"), ("failed")]
        decide)
  have hbulk := bulk_import_pest_data_spec aps w.pests w.logs (chop_dataset_by_domain df).pest
    ap u hap hval
  have hlogact : ¬ ("upload") ∉ valid_actions := by decide
  have hlogmod : ¬ ("dataset") ∉ valid_modules := by decide
  simp only [dataset_upload_import_handler, hcreate, eq_self_iff_true, true_and,
    if_pos hpest, hbulk, SqliteBackup.log_activity, if_neg hlogact, if_neg hlogmod]
  rw [update_dataset_upload_append]
  refine ⟨_, rfl, rfl, ?_⟩
  simp [List.append_assoc]

/-- Witness for C8 at a concrete batch containing a failing row: the
job completes and exactly two log entries exist — the single batch
summary (success = 1, failed = 1) and the page's upload entry. -/
theorem import_completion_and_single_summary_log_witness :
    (("AP1") ≠ ("") ∧
      SqliteBackup.validate_area_point_exists aps_active ("AP1") = Except.ok () ∧
      ("data.csv") ≠ ("") ∧ ("u") ≠ ("") ∧
      0 < (chop_dataset_by_domain c1_mixed_table).pest.rows.length) ∧
    ∃ w2, dataset_upload_import_handler aps_active ⟨[], [], [], []⟩ c1_mixed_table ("AP1")
        ("data.csv") ("u") false true 10 = Except.ok w2 ∧
      w2.uploads = [⟨("AP1_data.csv"), ("data.csv"), ("u"), 2, ("invalid"),
        ("Missing required columns: Week_Number, WSB"), 10,
        [("Year"), ("Month"), ("Day"), ("RBB")], ("completed")⟩] ∧
      w2.logs = [⟨("u"), ("import"), ("pest"), some ("pest_records"), some ("AP1"),
          some (pest_import_details 1 1 2)⟩,
        ⟨("u"), ("upload"), ("dataset"), some ("dataset_uploads"), some ("1"),
          some (upload_log_details ("AP1") ("data.csv"))⟩] := by
  refine ⟨⟨by decide, by decide, by decide, by decide, by decide⟩, ?_⟩
  obtain ⟨w2, h1, h2, h3⟩ := import_completion_and_single_summary_log aps_active
    ⟨[], [], [], []⟩ c1_mixed_table ("AP1") ("data.csv") ("u") false 10 (by decide)
    (by decide) (by decide) (by decide) (by decide)
  refine ⟨w2, h1, ?_, ?_⟩
  · rw [h2]
    decide
  · rw [h3]
    decide

theorem rangeCheckRun_ok (df : Frame) (capName lowName : String) (lo hi : ℚ) (label : String)
    (hcap : colCount df.header capName ≤ 1) (hlow : colCount df.header lowName ≤ 1) :
    rangeCheckRun df capName lowName lo hi label =
      Except.ok (rangeCheck df capName lowName lo hi label) := by
  unfold rangeCheckRun
  by_cases hp : capName ∈ df.header ∨ lowName ∈ df.header
  · rw [if_pos hp]
    have hcol : colCount df.header (if capName ∈ df.header then capName else lowName) ≤ 1 := by
      split
      · exact hcap
      · exact hlow
    rw [if_neg (by omega)]
  · rw [if_neg hp]
    unfold rangeCheck
    rw [if_neg hp]

theorem pestCheckRun_ok (df : Frame) (col : String) (h : colCount df.header col ≤ 1) :
    pestCheckRun df col = Except.ok (pestCheck df col) := by
  unfold pestCheckRun
  by_cases hp : col ∈ df.header
  · rw [if_pos hp, if_neg (by omega)]
  · rw [if_neg hp]
    unfold pestCheck
    rw [if_neg hp]

/-- Counterexample to C6 as stated: the validator is not total.  A CSV
carrying both `Year` and `year` is normalized to a header with two
`Year` columns; on that table the structural check passes, the year
range check accesses a duplicated column, and the validator raises
instead of returning a result. -/
theorem validator_raises_on_duplicate_columns_counterexample :
    (normalize_column_names c6_raw_table).header =
      [("Year"), ("Year"), ("Week_Number"), ("Month"), ("Day"), ("RBB"), ("WSB")] ∧
    validate_pest_dataset_run (normalize_column_names c6_raw_table) =
      Except.error ("AttributeError: DataFrame object has no attribute between") ∧
    (validate_pest_dataset_run (normalize_column_names c6_raw_table)).isOk = false := by
  decide

/-- C6 (amended): on every table in which each exactly-named checked
column (Year, year, Month, month, Day, day, RBB, WSB) occurs at most
once in the header — including the empty table and tables with missing
columns — the validator never raises: it returns the well-formed
structured result with the input's row and column counts and with
`valid` true exactly when the error list is empty.  (It is not total
beyond that: a duplicated checked column makes a range check raise,
and cells are modelled as numeric-or-NaN, non-numeric cells raising
`TypeError` in the source being outside the model.) -/
theorem validator_total_on_unduplicated_columns (df : Frame)
    (h1 : colCount df.header ("Year") ≤ 1) (h2 : colCount df.header ("year") ≤ 1)
    (h3 : colCount df.header ("Month") ≤ 1) (h4 : colCount df.header ("month") ≤ 1)
    (h5 : colCount df.header ("Day") ≤ 1) (h6 : colCount df.header ("day") ≤ 1)
    (h7 : colCount df.header ("RBB") ≤ 1) (h8 : colCount df.header ("WSB") ≤ 1) :
    validate_pest_dataset_run df = Except.ok (validate_pest_dataset df) ∧
    (validate_pest_dataset df).row_count = df.rows.length ∧
    (validate_pest_dataset df).column_count = df.header.length ∧
    ((validate_pest_dataset df).valid = true ↔ (validate_pest_dataset df).errors = []) := by
  refine ⟨?_, rfl, rfl, list_isEmpty_iff _⟩
  have r1 := rangeCheckRun_ok df ("Year") ("year") 2000 2100 ("year") h1 h2
  have r2 := rangeCheckRun_ok df ("Month") ("month") 1 12 ("month") h3 h4
  have r3 := rangeCheckRun_ok df ("Day") ("day") 1 31 ("day") h5 h6
  have r4 := pestCheckRun_ok df ("RBB") h7
  have r5 := pestCheckRun_ok df ("WSB") h8
  simp only [validate_pest_dataset_run, validate_pest_dataset, r1, r2, r3, r4, r5]
  by_cases hG : 0 < df.rows.length ∧
      (if missingFrom df.header required_columns ≠ [] then
        [("Missing required columns: " ++ joinComma (missingFrom df.header required_columns))]
      else []) = []
  · rw [if_pos hG, if_pos hG]
  · rw [if_neg hG, if_neg hG]
    simp

/-- Witness for C6 (amended) at the concrete scenario table, whose
checked columns are all distinct: the run model returns the
`validate_pest_dataset` result. -/
theorem validator_total_on_unduplicated_columns_witness :
    (colCount c2_table.header ("Year") ≤ 1 ∧ colCount c2_table.header ("year") ≤ 1 ∧
      colCount c2_table.header ("Month") ≤ 1 ∧ colCount c2_table.header ("month") ≤ 1 ∧
      colCount c2_table.header ("Day") ≤ 1 ∧ colCount c2_table.header ("day") ≤ 1 ∧
      colCount c2_table.header ("RBB") ≤ 1 ∧ colCount c2_table.header ("WSB") ≤ 1) ∧
    validate_pest_dataset_run c2_table = Except.ok (validate_pest_dataset c2_table) ∧
    (validate_pest_dataset c2_table).row_count = 5 ∧
    (validate_pest_dataset c2_table).column_count = 8 := by
  refine ⟨by decide, ?_, by decide, by decide⟩
  exact (validator_total_on_unduplicated_columns c2_table (by decide) (by decide) (by decide)
    (by decide) (by decide) (by decide) (by decide) (by decide)).1
